import Mathlib

/-!
Verification development for the Frostlogic document-validation console
(`src/streamlit/streamlit_app.py`, `src/streamlit/pages/01_Configuration.py`,
`src/streamlit/pages/02_Upload_Files.py`).

The Python data manipulated by the app (values produced by `json.loads`,
edited by the configuration editor, and serialized by `json.dumps`) is
embedded as the inductive type `Json` below.  Python `dict`s are modelled
as insertion-ordered association lists, matching CPython semantics:
assignment to an existing key replaces the value in place, assignment to a
fresh key appends, and `pop` removes the entry.  Strings are treated as
their character lists; `str.isdigit` is modelled on ASCII digits (the
claims and the app only exercise ASCII data).  Floats are modelled as the
exact decimal rationals produced by parsing; no claim depends on binary
floating-point rounding or on Python's float `repr` text.
-/

/-- Embedded Python/JSON values (output of `json.loads`, editor state,
gateway envelopes). -/
inductive Json where
  | null
  | bool (b : Bool)
  | int (n : Int)
  | float (q : Rat)
  | str (s : String)
  | arr (xs : List Json)
  | obj (xs : List (String × Json))

namespace Json

/-- Keys of a Python dict, in insertion order. -/
def keys (d : List (String × Json)) : List String := d.map Prod.fst

/-- Python `d[k]` / `d.get(k)`: first (unique) binding of `k`. -/
def get? (d : List (String × Json)) (k : String) : Option Json :=
  match d with
  | [] => none
  | (k', v) :: rest => if k' = k then some v else get? rest k

/-- Python `d[k] = v`: replace in place if `k` is present, else append. -/
def set (d : List (String × Json)) (k : String) (v : Json) :
    List (String × Json) :=
  match d with
  | [] => [(k, v)]
  | (k', v') :: rest =>
      if k' = k then (k', v) :: rest else (k', v') :: set rest k v

/-- Python `del d[k]` / the removal part of `d.pop(k)`. -/
def erase (d : List (String × Json)) (k : String) : List (String × Json) :=
  match d with
  | [] => []
  | (k', v') :: rest =>
      if k' = k then rest else (k', v') :: erase rest k

/-- Lookup on a `Json` value: dict lookup on objects, `none` otherwise
(Python would raise on `.get` of a non-dict; no claim reaches that case
with a call issued afterwards). -/
def objGet? : Json → String → Option Json
  | .obj d, k => get? d k
  | _, _ => none

/-- Python truthiness of an embedded value (`if x:`). -/
def pyTruthy : Json → Bool
  | .null => false
  | .bool b => b
  | .int n => n ≠ 0
  | .float q => q ≠ 0
  | .str s => s ≠ ""
  | .arr xs => !xs.isEmpty
  | .obj xs => !xs.isEmpty

/-- Python `bool(d.get(k))`: missing key (`None`) is falsy. -/
def getTruthy (v : Json) (k : String) : Bool :=
  match objGet? v k with
  | some x => pyTruthy x
  | none => false

def isStr : Json → Bool
  | .str _ => true
  | _ => false

end Json

/-! ### Python string primitives used by the app -/

/-- Python `str.isdigit` restricted to ASCII: non-empty and all digits. -/
def pyIsdigit (cs : List Char) : Bool :=
  !cs.isEmpty && cs.all Char.isDigit

/-- Numeric value of an ASCII digit string (the value `int()` returns on a
digit string, possibly with leading zeros). -/
def digitsToNat (cs : List Char) : Nat :=
  cs.foldl (fun n c => n * 10 + (c.toNat - '0'.toNat)) 0

/-- Python `int(s)` on the strings accepted by the code's guard
(`s.isdigit()` or `'-' + digits`). -/
def pyIntOfChars (cs : List Char) : Int :=
  match cs with
  | '-' :: rest => -(digitsToNat rest : Int)
  | _ => (digitsToNat cs : Int)

/-- Python `s.replace(c, '')`: drop every occurrence of one character. -/
def pyDropChar (cs : List Char) (bad : Char) : List Char :=
  cs.filter (fun c => c ≠ bad)

/-- Python `s.lower()` (ASCII). -/
def pyLower (cs : List Char) : List Char := cs.map Char.toLower

/-- Python `float(s)` restricted to the strings reachable under the code's
guard (characters drawn from digits, `.` and `-`): an optional leading
minus sign followed by digits containing exactly one decimal point and at
least one digit.  The result is the exact decimal rational; exponent and
non-finite forms never reach this call in the source. -/
def pyFloatOfChars? (cs : List Char) : Option Rat :=
  let neg := cs.head? = some '-'
  let t := if neg then cs.tail else cs
  if t.count '.' = 1 && (t.filter (fun c => c ≠ '.')).all Char.isDigit &&
      t.any Char.isDigit then
    let ip := t.takeWhile (fun c => c ≠ '.')
    let fp := (t.dropWhile (fun c => c ≠ '.')).tail
    let q : Rat :=
      (digitsToNat ip : Rat) + (digitsToNat fp : Rat) / ((10 : Rat) ^ fp.length)
    some (if neg then -q else q)
  else none

/-! ### `convert_string_to_appropriate_type`
(`pages/01_Configuration.py`, lines 264-289) -/

/-- The int-branch guard of the source:
`value.isdigit() or (value.startswith('-') and value[1:].isdigit())`. -/
def convIntGuard (cs : List Char) : Bool :=
  pyIsdigit cs || (cs.head? = some '-' && pyIsdigit cs.tail)

/-- The float-branch guard of the source:
`'.' in value and value.replace('.', '').replace('-', '').isdigit()`. -/
def convFloatGuard (cs : List Char) : Bool :=
  cs.contains '.' && pyIsdigit (pyDropChar (pyDropChar cs '.') '-')

/-- The bool check and string fallback of the source (lines 284-289). -/
def convertTail (cs : List Char) : Json :=
  if pyLower cs = "true".data then .bool true
  else if pyLower cs = "false".data then .bool false
  else .str (String.mk cs)

/-- Body of `convert_string_to_appropriate_type` on a string argument.
The float branch wraps `float(value)` in `try/except`: a guard-passing
string on which `float` raises falls through to the bool check. -/
def convertChars (cs : List Char) : Json :=
  if convIntGuard cs then .int (pyIntOfChars cs)
  else if convFloatGuard cs then
    match pyFloatOfChars? cs with
    | some q => .float q
    | none => convertTail cs
  else convertTail cs

/-- `convert_string_to_appropriate_type` (lines 264-289): non-strings are
returned unchanged by the leading `isinstance` check. -/
def convert_string_to_appropriate_type (v : Json) : Json :=
  match v with
  | .str s => convertChars s.data
  | v => v

/-! ### `json.dumps`

The app serializes with `json.dumps(x, indent=2)` (editor text buffer) and
`json.dumps(x)` (SQL argument payloads).  `ensure_ascii=True` (the default)
escapes every character outside printable ASCII.  Float text is rendered as
the shortest exact decimal of the modelled rational; no theorem in this
development depends on float text. -/

/-- Four-digit uppercase-free hex as produced by `json.dumps` `\uXXXX`. -/
def hexDigit (n : Nat) : Char :=
  if n < 10 then Char.ofNat ('0'.toNat + n) else Char.ofNat ('a'.toNat + (n - 10))

def hex4 (n : Nat) : List Char :=
  [hexDigit (n / 4096 % 16), hexDigit (n / 256 % 16),
   hexDigit (n / 16 % 16), hexDigit (n % 16)]

/-- Escape one character as `json.dumps` does with `ensure_ascii=True`. -/
def jsonEscapeChar (c : Char) : List Char :=
  if c = '"' then ['\\', '"']
  else if c = '\\' then ['\\', '\\']
  else if c = '\n' then ['\\', 'n']
  else if c = '\t' then ['\\', 't']
  else if c = '\r' then ['\\', 'r']
  else if c.toNat = 8 then ['\\', 'b']
  else if c.toNat = 12 then ['\\', 'f']
  else if c.toNat < 32 || c.toNat > 126 then
    if c.toNat < 65536 then '\\' :: 'u' :: hex4 c.toNat
    else
      let n := c.toNat - 65536
      ('\\' :: 'u' :: hex4 (55296 + n / 1024)) ++
        ('\\' :: 'u' :: hex4 (56320 + n % 1024))
  else [c]

/-- A JSON string literal for `s`, quotes included. -/
def jsonQuote (s : String) : String :=
  String.mk ('"' :: (s.data.flatMap jsonEscapeChar) ++ ['"'])

/-- Decimal text for a modelled float (exact shortest decimal; stands in
for Python's float `repr`). -/
def ratDecimalString (q : Rat) : String :=
  if q = 0 then "0.0"
  else
    match (List.range 31).find? (fun k => (q * (10 : Rat) ^ k).den = 1) with
    | some k =>
        if k = 0 then toString q.num ++ ".0"
        else
          let m := (|q| * (10 : Rat) ^ k).num.toNat
          let s := toString m
          let s := String.mk (List.replicate (k + 1 - s.length) '0') ++ s
          let ip := String.mk (s.data.take (s.length - k))
          let fp := String.mk (s.data.drop (s.length - k))
          (if q < 0 then "-" else "") ++ ip ++ "." ++ fp
    | none => toString q

def indentSpaces (level : Nat) : String := String.mk (List.replicate (2 * level) ' ')

mutual
def dumpsIndentV (level : Nat) : Json → String
  | .null => "null"
  | .bool b => if b then "true" else "false"
  | .int n => toString n
  | .float q => ratDecimalString q
  | .str s => jsonQuote s
  | .arr [] => "[]"
  | .arr (x :: xs) =>
      "[\n" ++ dumpsIndentL (level + 1) (x :: xs) ++ "\n" ++ indentSpaces level ++ "]"
  | .obj [] => "\x7b\x7d"
  | .obj (p :: ps) =>
      "\x7b\n" ++ dumpsIndentO (level + 1) (p :: ps) ++ "\n" ++
        indentSpaces level ++ "\x7d"

def dumpsIndentL (level : Nat) : List Json → String
  | [] => ""
  | [x] => indentSpaces level ++ dumpsIndentV level x
  | x :: y :: ys =>
      indentSpaces level ++ dumpsIndentV level x ++ ",\n" ++
        dumpsIndentL level (y :: ys)

def dumpsIndentO (level : Nat) : List (String × Json) → String
  | [] => ""
  | [(k, v)] => indentSpaces level ++ jsonQuote k ++ ": " ++ dumpsIndentV level v
  | (k, v) :: q :: qs =>
      indentSpaces level ++ jsonQuote k ++ ": " ++ dumpsIndentV level v ++ ",\n" ++
        dumpsIndentO level (q :: qs)
end

/-- `json.dumps(v, indent=2)` as called by the editor. -/
def dumpsIndent2 (v : Json) : String := dumpsIndentV 0 v

mutual
def dumpsCompactV : Json → String
  | .null => "null"
  | .bool b => if b then "true" else "false"
  | .int n => toString n
  | .float q => ratDecimalString q
  | .str s => jsonQuote s
  | .arr [] => "[]"
  | .arr (x :: xs) => "[" ++ dumpsCompactL (x :: xs) ++ "]"
  | .obj [] => "\x7b\x7d"
  | .obj (p :: ps) => "\x7b" ++ dumpsCompactO (p :: ps) ++ "\x7d"

def dumpsCompactL : List Json → String
  | [] => ""
  | [x] => dumpsCompactV x
  | x :: y :: ys => dumpsCompactV x ++ ", " ++ dumpsCompactL (y :: ys)

def dumpsCompactO : List (String × Json) → String
  | [] => ""
  | [(k, v)] => jsonQuote k ++ ": " ++ dumpsCompactV v
  | (k, v) :: q :: qs =>
      jsonQuote k ++ ": " ++ dumpsCompactV v ++ ", " ++ dumpsCompactO (q :: qs)
end

/-- `json.dumps(v)` with the default separators `", "` and `": "` (the form
used for SQL argument payloads). -/
def dumpsCompact (v : Json) : String := dumpsCompactV v

/-! ### `json.loads`

A recursive-descent model of Python's `json.loads` (strict mode): objects,
arrays, strings with the standard escapes, numbers with JSON's grammar
(no leading zeros, optional fraction and exponent), `true`/`false`/`null`.
Python's non-standard `Infinity`/`NaN` literals are not representable here
and never occur in the app's data.  Duplicate object keys follow CPython
dict assignment (later value wins, first position kept).  The `fuel`
argument dominates the recursion depth; `loads` supplies enough fuel that
it never runs out. -/

def isJsonWs (c : Char) : Bool :=
  c = ' ' || c = '\t' || c = '\n' || c = '\r'

def skipWs (cs : List Char) : List Char := cs.dropWhile isJsonWs

def isHexDigitChar (c : Char) : Bool :=
  c.isDigit || ('a' ≤ c && c ≤ 'f') || ('A' ≤ c && c ≤ 'F')

def hexVal (c : Char) : Nat :=
  if c.isDigit then c.toNat - '0'.toNat
  else if 'a' ≤ c && c ≤ 'f' then c.toNat - 'a'.toNat + 10
  else c.toNat - 'A'.toNat + 10

/-- Body of a JSON string literal after the opening quote; returns the
decoded characters and the input after the closing quote. -/
def parseStringBody : List Char → Option (List Char × List Char)
  | [] => none
  | '"' :: rest => some ([], rest)
  | '\\' :: esc =>
      match esc with
      | '"' :: rest => (parseStringBody rest).map (fun p => ('"' :: p.1, p.2))
      | '\\' :: rest => (parseStringBody rest).map (fun p => ('\\' :: p.1, p.2))
      | '/' :: rest => (parseStringBody rest).map (fun p => ('/' :: p.1, p.2))
      | 'b' :: rest => (parseStringBody rest).map (fun p => (Char.ofNat 8 :: p.1, p.2))
      | 'f' :: rest => (parseStringBody rest).map (fun p => (Char.ofNat 12 :: p.1, p.2))
      | 'n' :: rest => (parseStringBody rest).map (fun p => ('\n' :: p.1, p.2))
      | 'r' :: rest => (parseStringBody rest).map (fun p => ('\r' :: p.1, p.2))
      | 't' :: rest => (parseStringBody rest).map (fun p => ('\t' :: p.1, p.2))
      | 'u' :: a :: b :: c :: d :: rest =>
          if isHexDigitChar a && isHexDigitChar b && isHexDigitChar c &&
              isHexDigitChar d then
            let n := ((hexVal a * 16 + hexVal b) * 16 + hexVal c) * 16 + hexVal d
            (parseStringBody rest).map (fun p => (Char.ofNat n :: p.1, p.2))
          else none
      | _ => none
  | c :: rest =>
      if c.toNat < 32 then none
      else (parseStringBody rest).map (fun p => (c :: p.1, p.2))

/-- JSON number grammar: `-? (0 | [1-9][0-9]*) (. [0-9]+)? ([eE][+-]?[0-9]+)?`.
An integer literal with neither fraction nor exponent parses to `.int`,
anything else to `.float` with its exact rational value. -/
def parseNumber (cs : List Char) : Option (Json × List Char) :=
  let (neg, cs1) := match cs with
    | '-' :: rest => (true, rest)
    | _ => (false, cs)
  let ip := cs1.takeWhile Char.isDigit
  let cs2 := cs1.dropWhile Char.isDigit
  if ip.isEmpty then none
  else if ip.length > 1 && ip.head? = some '0' then none
  else
    let (fp, cs3) := match cs2 with
      | '.' :: rest => (rest.takeWhile Char.isDigit, rest.dropWhile Char.isDigit)
      | _ => ([], cs2)
    let hadDot := cs2.head? = some '.'
    if hadDot && fp.isEmpty then none
    else
      let (hadExp, expNeg, ep, cs4) := match cs3 with
        | 'e' :: '+' :: rest => (true, false, rest.takeWhile Char.isDigit, rest.dropWhile Char.isDigit)
        | 'e' :: '-' :: rest => (true, true, rest.takeWhile Char.isDigit, rest.dropWhile Char.isDigit)
        | 'e' :: rest => (true, false, rest.takeWhile Char.isDigit, rest.dropWhile Char.isDigit)
        | 'E' :: '+' :: rest => (true, false, rest.takeWhile Char.isDigit, rest.dropWhile Char.isDigit)
        | 'E' :: '-' :: rest => (true, true, rest.takeWhile Char.isDigit, rest.dropWhile Char.isDigit)
        | 'E' :: rest => (true, false, rest.takeWhile Char.isDigit, rest.dropWhile Char.isDigit)
        | _ => (false, false, [], cs3)
      if hadExp && ep.isEmpty then none
      else if !hadDot && !hadExp then
        let n : Int := digitsToNat ip
        some (.int (if neg then -n else n), cs4)
      else
        let mant : Rat :=
          (digitsToNat ip : Rat) +
            (digitsToNat fp : Rat) / ((10 : Rat) ^ fp.length)
        let scaled : Rat :=
          if expNeg then mant / ((10 : Rat) ^ digitsToNat ep)
          else mant * ((10 : Rat) ^ digitsToNat ep)
        some (.float (if neg then -scaled else scaled), cs4)

mutual
def parseVal : Nat → List Char → Option (Json × List Char)
  | 0, _ => none
  | _ + 1, [] => none
  | fuel + 1, cs =>
      match cs with
      | 't' :: 'r' :: 'u' :: 'e' :: rest => some (.bool true, rest)
      | 'f' :: 'a' :: 'l' :: 's' :: 'e' :: rest => some (.bool false, rest)
      | 'n' :: 'u' :: 'l' :: 'l' :: rest => some (.null, rest)
      | '"' :: rest =>
          (parseStringBody rest).map (fun p => (.str (String.mk p.1), p.2))
      | '[' :: rest =>
          match skipWs rest with
          | ']' :: r => some (.arr [], r)
          | r => (parseItems fuel r).map (fun p => (.arr p.1, p.2))
      | '\x7b' :: rest =>
          match skipWs rest with
          | '\x7d' :: r => some (.obj [], r)
          | r =>
              (parseMembers fuel r).map (fun p =>
                (.obj (p.1.foldl (fun d kv => Json.set d kv.1 kv.2) []), p.2))
      | _ => parseNumber cs

def parseItems : Nat → List Char → Option (List Json × List Char)
  | 0, _ => none
  | fuel + 1, cs =>
      match parseVal fuel cs with
      | none => none
      | some (v, rest) =>
          match skipWs rest with
          | ',' :: r =>
              (parseItems fuel (skipWs r)).map (fun p => (v :: p.1, p.2))
          | ']' :: r => some ([v], r)
          | _ => none

def parseMembers : Nat → List Char → Option (List (String × Json) × List Char)
  | 0, _ => none
  | fuel + 1, cs =>
      match cs with
      | '"' :: rest =>
          match parseStringBody rest with
          | none => none
          | some (k, r1) =>
              match skipWs r1 with
              | ':' :: r2 =>
                  match parseVal fuel (skipWs r2) with
                  | none => none
                  | some (v, r3) =>
                      match skipWs r3 with
                      | ',' :: r4 =>
                          (parseMembers fuel (skipWs r4)).map
                            (fun p => ((String.mk k, v) :: p.1, p.2))
                      | '\x7d' :: r4 => some ([(String.mk k, v)], r4)
                      | _ => none
              | _ => none
      | _ => none
end

/-- `json.loads(s)`: `some` on valid JSON text, `none` where CPython raises
`json.JSONDecodeError`. -/
def loads (s : String) : Option Json :=
  match parseVal (2 * s.data.length + 8) (skipWs s.data) with
  | some (v, rest) => if (skipWs rest).isEmpty then some v else none
  | none => none

/-! ### The dual-mode configuration editor
(`render_json_editor`, `pages/01_Configuration.py`, lines 526-895)

Streamlit re-executes the page top to bottom on every interaction; the
values that survive are the `st.session_state` entries
`{key_prefix}_config`, `{key_prefix}_json_text` and `{key_prefix}_edit_mode`,
modelled as `EditorState`.  A render pass processes at most one user
interaction (the widget whose callback condition fires), performs that
handler's session-state mutations and then either aborts the pass with
`st.rerun()` or falls through to the end of the function.  The form
counters used to recreate the add-widgets with blank fields, and the
echo assignments that rewrite an unedited property with the coercion of
its own rendered text, do not affect the claims and are not part of the
state.  Events carry the text currently held by the triggering widget. -/

inductive EditMode where
  | uiEditor
  | jsonEditor
deriving DecidableEq, Repr

/-- The three session-state slots of one editor instance. -/
structure EditorState where
  config : Json
  jsonText : String
  editMode : EditMode

/-- The `Section Type:` selector of the add-section form (lines 858-862). -/
inductive SectionType where
  | simpleValue
  | objectProps
  | arrayList
deriving DecidableEq, Repr

/-- One user interaction delivered to a render pass. -/
inductive EditorEvent where
  | none
  | radioSelect (m : EditMode)
  | textEdit (t : String)
  | validateApplyClick
  | switchToUiClick
  | switchToJsonClick
  | renameSection (old new : String)
  | deleteSection (k : String)
  | renameProp (sec old new : String)
  | editProp (sec k v : String)
  | deleteProp (sec k : String)
  | addProp (sec k v : String)
  | editItem (sec : String) (i : Nat) (v : String)
  | deleteItem (sec : String) (i : Nat)
  | addItem (sec v : String)
  | editSimple (sec v : String)
  | addSection (k : String) (ty : SectionType)

/-- A handler either aborts the pass (`st.rerun()`) or lets it continue. -/
inductive HandlerStep where
  | rerun (s : EditorState)
  | fallthrough (s : EditorState)

/-- Initialization of a fresh editor session (lines 535-540). -/
def render_json_editor_init (config_json : Json) : EditorState :=
  { config := config_json
    jsonText := dumpsIndent2 config_json
    editMode := .uiEditor }

/-- The handler that fires for `e` during one render pass from state `s`.
Widgets of the inactive mode are not rendered, so their events are no-ops;
likewise a structural mutation naming a section or property that the
current document does not present as the required shape corresponds to no
rendered widget and is a no-op. -/
def handleEvent (s : EditorState) : EditorEvent → HandlerStep
  | .none => .fallthrough s
  | .radioSelect m =>
      -- Lines 552-562: the mode slot is updated unconditionally, then the
      -- derived view is recomputed; a parse failure is swallowed
      -- (`except json.JSONDecodeError: pass`).
      if m = s.editMode then .fallthrough s
      else
        match m with
        | .jsonEditor =>
            .rerun { s with editMode := .jsonEditor,
                            jsonText := dumpsIndent2 s.config }
        | .uiEditor =>
            match loads s.jsonText with
            | some p => .rerun { s with editMode := .uiEditor, config := p }
            | Option.none => .rerun { s with editMode := .uiEditor }
  | .textEdit t =>
      -- Lines 571-581: the text area content is copied into session state.
      if s.editMode = .jsonEditor then .fallthrough { s with jsonText := t }
      else .fallthrough s
  | .validateApplyClick =>
      -- Lines 587-594: parse, and on success commit both views.
      if s.editMode = .jsonEditor then
        match loads s.jsonText with
        | some p =>
            .fallthrough { s with config := p, jsonText := dumpsIndent2 p }
        | Option.none => .fallthrough s
      else .fallthrough s
  | .switchToUiClick =>
      -- Lines 597-605: parse; on success commit and change mode; on
      -- failure only an error message is shown.
      if s.editMode = .jsonEditor then
        match loads s.jsonText with
        | some p =>
            .rerun { config := p, jsonText := dumpsIndent2 p,
                     editMode := .uiEditor }
        | Option.none => .fallthrough s
      else .fallthrough s
  | .switchToJsonClick =>
      -- Lines 890-892; the unconditional re-serialization of line 886 has
      -- already run by the time this button is reached.
      if s.editMode = .uiEditor then
        .rerun { s with jsonText := dumpsIndent2 s.config,
                        editMode := .jsonEditor }
      else .fallthrough s
  | .renameSection old new =>
      -- Lines 652-654: pop + assign, rerun, **no** re-serialization.
      if s.editMode = .uiEditor then
        match s.config with
        | .obj d =>
            if new ≠ old ∧ new ∉ Json.keys d then
              match Json.get? d old with
              | some v =>
                  let c := Json.obj (Json.set (Json.erase d old) new v)
                  .rerun { s with config := c }
              | Option.none => .fallthrough s
            else .fallthrough s
        | _ => .fallthrough s
      else .fallthrough s
  | .deleteSection k =>
      -- Lines 659-665: delete, re-serialize immediately, rerun.
      if s.editMode = .uiEditor then
        match s.config with
        | .obj d =>
            if k ∈ Json.keys d then
              let c := Json.obj (Json.erase d k)
              .rerun { s with config := c, jsonText := dumpsIndent2 c }
            else .fallthrough s
        | _ => .fallthrough s
      else .fallthrough s
  | .renameProp sec old new =>
      -- Lines 684-687: pop + assign inside the section, rerun, **no**
      -- re-serialization.
      if s.editMode = .uiEditor then
        match s.config with
        | .obj d =>
            match Json.get? d sec with
            | some (.obj pd) =>
                if new ≠ old ∧ new ∉ Json.keys pd then
                  match Json.get? pd old with
                  | some v =>
                      let c := Json.obj
                        (Json.set d sec (Json.obj (Json.set (Json.erase pd old) new v)))
                      .rerun { s with config := c }
                  | Option.none => .fallthrough s
                else .fallthrough s
            | _ => .fallthrough s
        | _ => .fallthrough s
      else .fallthrough s
  | .editProp sec k v =>
      -- Lines 690-700: typed coercion of the text-area content, applied in
      -- place; the pass continues (re-serialization happens at line 886).
      if s.editMode = .uiEditor then
        match s.config with
        | .obj d =>
            match Json.get? d sec with
            | some (.obj pd) =>
                let c := Json.obj (Json.set d sec
                  (Json.obj (Json.set pd k (convert_string_to_appropriate_type (.str v)))))
                .fallthrough { s with config := c }
            | _ => .fallthrough s
        | _ => .fallthrough s
      else .fallthrough s
  | .deleteProp sec k =>
      -- Lines 706-712: delete, re-serialize immediately, rerun.
      if s.editMode = .uiEditor then
        match s.config with
        | .obj d =>
            match Json.get? d sec with
            | some (.obj pd) =>
                if k ∈ Json.keys pd then
                  let c := Json.obj (Json.set d sec (.obj (Json.erase pd k)))
                  .rerun { s with config := c, jsonText := dumpsIndent2 c }
                else .fallthrough s
            | _ => .fallthrough s
        | _ => .fallthrough s
      else .fallthrough s
  | .addProp sec k v =>
      -- Lines 746-756: one-shot form; on a fresh non-empty key, add,
      -- re-serialize immediately, rerun.
      if s.editMode = .uiEditor then
        match s.config with
        | .obj d =>
            match Json.get? d sec with
            | some (.obj pd) =>
                if k ≠ "" ∧ k ∉ Json.keys pd then
                  let c := Json.obj (Json.set d sec
                    (.obj (Json.set pd k (convert_string_to_appropriate_type (.str v)))))
                  .rerun { s with config := c, jsonText := dumpsIndent2 c }
                else .fallthrough s
            | _ => .fallthrough s
        | _ => .fallthrough s
      else .fallthrough s
  | .editItem sec i v =>
      -- Lines 766-775: typed coercion applied to the list slot in place;
      -- the pass continues.
      if s.editMode = .uiEditor then
        match s.config with
        | .obj d =>
            match Json.get? d sec with
            | some (.arr xs) =>
                if i < xs.length then
                  let c := Json.obj (Json.set d sec
                    (Json.arr (xs.set i (convert_string_to_appropriate_type (.str v)))))
                  .fallthrough { s with config := c }
                else .fallthrough s
            | _ => .fallthrough s
        | _ => .fallthrough s
      else .fallthrough s
  | .deleteItem sec i =>
      -- Lines 780-786: `list.pop(i)`, re-serialize immediately, rerun.
      if s.editMode = .uiEditor then
        match s.config with
        | .obj d =>
            match Json.get? d sec with
            | some (.arr xs) =>
                if i < xs.length then
                  let c := Json.obj (Json.set d sec (.arr (xs.eraseIdx i)))
                  .rerun { s with config := c, jsonText := dumpsIndent2 c }
                else .fallthrough s
            | _ => .fallthrough s
        | _ => .fallthrough s
      else .fallthrough s
  | .addItem sec v =>
      -- Lines 812-818: append, re-serialize immediately, rerun.
      if s.editMode = .uiEditor then
        match s.config with
        | .obj d =>
            match Json.get? d sec with
            | some (.arr xs) =>
                if v ≠ "" then
                  let c := Json.obj (Json.set d sec
                    (.arr (xs ++ [convert_string_to_appropriate_type (.str v)])))
                  .rerun { s with config := c, jsonText := dumpsIndent2 c }
                else .fallthrough s
            | _ => .fallthrough s
        | _ => .fallthrough s
      else .fallthrough s
  | .editSimple sec v =>
      -- Lines 824-833: typed coercion of the scalar section value; the
      -- pass continues.
      if s.editMode = .uiEditor then
        match s.config with
        | .obj d =>
            let c := Json.obj (Json.set d sec (convert_string_to_appropriate_type (.str v)))
            .fallthrough { s with config := c }
        | _ => .fallthrough s
      else .fallthrough s
  | .addSection k ty =>
      -- Lines 868-879: one-shot form; on a fresh non-empty name, add the
      -- template value, re-serialize immediately, rerun.
      if s.editMode = .uiEditor then
        match s.config with
        | .obj d =>
            if k ≠ "" ∧ k ∉ Json.keys d then
              let v : Json := match ty with
                | .objectProps => .obj [("new_property", .str "New value")]
                | .arrayList => .arr [.str "New item"]
                | .simpleValue => .str "New value"
              let c := Json.obj (Json.set d k v)
              .rerun { s with config := c, jsonText := dumpsIndent2 c }
            else .fallthrough s
        | _ => .fallthrough s
      else .fallthrough s

/-- Outcome of one full render pass: aborted by `st.rerun()`, or returning
the current document (line 895). -/
inductive PassOutcome where
  | rerun (s : EditorState)
  | ret (s : EditorState) (result : Json)

/-- One render pass of `render_json_editor`: dispatch the interaction,
then either abort, or — in UI mode — re-serialize the text buffer one
last time (line 886) and return the document (line 895). -/
def render_json_editor_pass (s : EditorState) (e : EditorEvent) : PassOutcome :=
  match handleEvent s e with
  | .rerun s' => .rerun s'
  | .fallthrough s' =>
      if s'.editMode = .uiEditor then
        .ret { s' with jsonText := dumpsIndent2 s'.config } s'.config
      else .ret s' s'.config

/-! ### The RPC gateway layer

Every `ConfigurationManager` / `FrostlogicApp` method builds one SQL
`CALL` string by Python f-string interpolation, executes it, and unwraps
the single-row single-column JSON reply.  A remote execution is modelled
as `GatewayOutcome`: it raises with some message, or returns a list of
rows whose relevant cell is either already-decoded JSON or text still to
be decoded with `json.loads`. -/

/-- Python `s.replace("'", "''")`. -/
def pyDoubleQuotes (s : String) : String :=
  String.mk (s.data.flatMap (fun c => if c = '\'' then ['\'', '\''] else [c]))

/-- Python `str(b).lower()` on a bool. -/
def pyBoolLower (b : Bool) : String := if b then "true" else "false"

/-- The result cell of one returned row: Snowflake hands back either text
(to be parsed) or an already-structured value. -/
inductive Cell where
  | text (s : String)
  | val (j : Json)

/-- Outcome of executing a `CALL` against the session. -/
inductive GatewayOutcome where
  | raises (msg : String)
  | rows (cells : List Cell)

/-- `if isinstance(response, str): response = json.loads(response)`.
Decoding failure re-raises inside the callers' `try` blocks. -/
def decodeCell : Cell → Option Json
  | .text s => loads s
  | .val j => some j

/-- Stand-in for the (always non-empty) text of the exception a failing
in-`try` `json.loads` raises. -/
def jsonDecodeErrorMsg : String := "Expecting value: line 1 column 1 (char 0)"

/-- SQL text built by `ConfigurationManager.create_file_type_config`
(`pages/01_Configuration.py`, lines 60-68): only the description is
quote-escaped; `file_type` and `target_lag` are interpolated verbatim. -/
def create_file_type_config_sql (file_type file_description : String)
    (chunk_size chunk_overlap : Int) (target_lag : String) : String :=
  "\n            CALL FILE_TYPE_CONFIGS_CREATE(\n                '" ++
    file_type ++ "',\n                '" ++
    pyDoubleQuotes file_description ++ "',\n                " ++
    toString chunk_size ++ ",\n                " ++
    toString chunk_overlap ++ ",\n                '" ++
    target_lag ++ "'\n            )\n            "

/-- SQL text built by `ConfigurationManager.delete_file_type_config`
(line 104): the bool is lowered, the file type interpolated verbatim. -/
def delete_file_type_config_sql (file_type : String) (drop_data : Bool) : String :=
  "CALL FILE_TYPE_CONFIGS_DELETE('" ++ file_type ++ "', " ++
    pyBoolLower drop_data ++ ")"

/-- SQL text built by `ConfigurationManager.create_processing_config`
(lines 194-202): the JSON body is serialized then quote-escaped; name,
type and model are interpolated verbatim. -/
def create_processing_config_sql (config_name processing_type : String)
    (config_model : String) (config_json : Json) : String :=
  "\n            CALL PROCESSING_CONFIGS_CREATE(\n                '" ++
    config_name ++ "',\n                '" ++
    processing_type ++ "',\n                '" ++
    pyDoubleQuotes (dumpsCompact config_json) ++ "',\n                '" ++
    config_model ++ "'\n            )\n            "

/-- SQL text built by `FrostlogicApp.process_documents`
(`streamlit_app.py`, lines 142-164) once the procedure name is chosen:
both JSON payloads are serialized, quote-escaped and wrapped in
`PARSE_JSON('...')`; the model name is interpolated verbatim. -/
def process_documents_sql (procedure_name : String)
    (file_config config_json : Json) (model_name : String) : String :=
  "\n            CALL " ++ procedure_name ++
    "(\n                PARSE_JSON('" ++
    pyDoubleQuotes (dumpsCompact file_config) ++
    "'),\n                PARSE_JSON('" ++
    pyDoubleQuotes (dumpsCompact config_json) ++
    "'),\n                '" ++ model_name ++ "'\n            )\n            "

/-- Result envelope of `ConfigurationManager.create_file_type_config`
(lines 69-77): decoded reply, or `No response` on zero rows, or
`{success: false, error: str(e)}` when the call (or the decode) raises. -/
def create_file_type_config_result (o : GatewayOutcome) : Json :=
  match o with
  | .raises msg => .obj [("success", .bool false), ("error", .str msg)]
  | .rows [] => .obj [("success", .bool false), ("error", .str "No response")]
  | .rows (c :: _) =>
      match decodeCell c with
      | some j => j
      | none => .obj [("success", .bool false), ("error", .str jsonDecodeErrorMsg)]

/-- Result envelope of `FrostlogicApp.process_documents`
(`streamlit_app.py`, lines 135-177).  An unrecognized processing type
returns an error before any call; a raising call yields
`Processing failed: ...`; zero rows yield `No response from procedure`. -/
def process_documents_result (processing_type : String) (o : GatewayOutcome) : Json :=
  if processing_type = "CORTEX_SEARCH" ∨ processing_type = "AI_EXTRACT" then
    match o with
    | .raises msg => .obj [("error", .str ("Processing failed: " ++ msg))]
    | .rows [] => .obj [("error", .str "No response from procedure")]
    | .rows (c :: _) =>
        match decodeCell c with
        | some j => j
        | none =>
            .obj [("error", .str ("Processing failed: " ++ jsonDecodeErrorMsg))]
  else .obj [("error", .str ("Unknown processing type: " ++ processing_type))]

/-- Result envelope of `ConfigurationManager.validate_processing_config`
(lines 249-262). -/
def validate_processing_config_result (o : GatewayOutcome) : Json :=
  match o with
  | .raises msg => .obj [("is_valid", .bool false), ("errors", .arr [.str msg])]
  | .rows [] =>
      .obj [("is_valid", .bool false), ("errors", .arr [.str "No response"])]
  | .rows (c :: _) =>
      match decodeCell c with
      | some j => j
      | none =>
          .obj [("is_valid", .bool false), ("errors", .arr [.str jsonDecodeErrorMsg])]

/-- The hard-coded model fallback of
`ConfigurationManager.get_available_models` (`pages/01_Configuration.py`,
lines 31-35 and 38-42; the same literal in both branches). -/
def configPageModelFallback : Json :=
  .obj [("supported_models", .arr [.str "claude-4-sonnet"]),
        ("default_model", .str "claude-4-sonnet"),
        ("recommended_models", .obj [("quality", .str "claude-4-sonnet")])]

/-- `ConfigurationManager.get_available_models` (lines 22-42): the decoded
reply when a row is present, the fallback both on zero rows and on a
raising call (where it is preceded by an error banner). -/
def config_page_get_available_models (o : GatewayOutcome) : Json :=
  match o with
  | .raises _ => configPageModelFallback
  | .rows [] => configPageModelFallback
  | .rows (c :: _) =>
      match decodeCell c with
      | some j => j
      | none => configPageModelFallback

/-- The zero-row return of `FrostlogicApp.get_available_models`
(`streamlit_app.py`, line 88): an **empty** `supported_models` list. -/
def appModelEmptyResult : Json :=
  .obj [("supported_models", .arr []),
        ("default_model", .str "claude-4-sonnet"),
        ("recommended_models", .obj [])]

/-- The exception fallback of `FrostlogicApp.get_available_models`
(lines 92-107): six hard-coded models. -/
def appModelExceptionFallback : Json :=
  .obj [("supported_models",
          .arr [.str "claude-4-sonnet", .str "claude-3-5-sonnet",
                .str "claude-3-7-sonnet", .str "llama3-8b",
                .str "mixtral-8x7b", .str "snowflake-llama-3.1-405b"]),
        ("default_model", .str "claude-4-sonnet"),
        ("recommended_models",
          .obj [("quality", .str "claude-4-sonnet"),
                ("balanced", .str "mixtral-8x7b"),
                ("speed", .str "llama3-8b")])]

/-- `FrostlogicApp.get_available_models` (`streamlit_app.py`, lines 79-107). -/
def app_get_available_models (o : GatewayOutcome) : Json :=
  match o with
  | .raises _ => appModelExceptionFallback
  | .rows [] => appModelEmptyResult
  | .rows (c :: _) =>
      match decodeCell c with
      | some j => j
      | none => appModelExceptionFallback

/-! ### Stage-path construction
(`FrostlogicApp.get_files_by_type`, `streamlit_app.py`, lines 118-133, and
`FileUploadManager.get_processed_files_status`,
`pages/02_Upload_Files.py`, lines 116-131 — the same expression). -/

/-- One row of `FILES_GET_BY_TYPE` as consumed by both callers. -/
structure FileRecord where
  fileName : String
  chunkCount : Int
  lastProcessed : String
  stageName : String
  fullPath : String

/-- `f"@{stage_name}/{full_path}" if full_path else f"@{stage_name}"`. -/
def stagePathOf (stage_name full_path : String) : String :=
  if full_path ≠ "" then "@" ++ stage_name ++ "/" ++ full_path
  else "@" ++ stage_name

/-- `get_files_by_type` / `get_processed_files_status`: each row is
extended with its derived `STAGE_PATH`. -/
def filesWithStagePaths (rows : List FileRecord) : List (FileRecord × String) :=
  rows.map (fun r => (r, stagePathOf r.stageName r.fullPath))

/-! ### Deletion flows of the page controllers
(`pages/01_Configuration.py`): document-type deletion
(lines 362-365 and 429-459), processing-config deletion (lines 956-959 and
1031-1050), and the Pipeline Management cleanup (lines 1378-1400).

For one document type and one processing config, the session-state flags
`confirm_delete_{FILE_TYPE}` and `confirm_delete_proc_{CONFIG_NAME}` are
the state; one button interaction is one event.  The confirm and cancel
buttons exist on screen only while their flag is set, so their events from
an unset state are no-ops.  `deleteControllerStep` returns the new flags
and the remote deletion call issued by the interaction, if any. -/

structure DeleteFlags where
  confirmDeleteFileType : Bool
  confirmDeleteProc : Bool
deriving DecidableEq, Repr, Fintype

inductive DeleteEvent where
  | fileTypeDeleteClick
  | fileTypeConfirmClick (drop_data success : Bool)
  | fileTypeCancelClick
  | procDeleteClick
  | procConfirmClick (success : Bool)
  | procCancelClick
  | pipelineCleanupClick (drop_data : Bool)
deriving DecidableEq, Repr, Fintype

inductive RemoteDeleteCall where
  | deleteFileTypeConfig (drop_data : Bool)
  | deleteProcessingConfig
deriving DecidableEq, Repr

def deleteControllerStep (s : DeleteFlags) :
    DeleteEvent → DeleteFlags × Option RemoteDeleteCall
  | .fileTypeDeleteClick =>
      -- Lines 363-365: arm the flag, no remote call.
      ({ s with confirmDeleteFileType := true }, none)
  | .fileTypeConfirmClick drop_data success =>
      -- Lines 443-454: rendered only under the armed flag; issues the
      -- delete call, resets the flag only on success.
      if s.confirmDeleteFileType then
        ({ s with confirmDeleteFileType := !success },
         some (.deleteFileTypeConfig drop_data))
      else (s, none)
  | .fileTypeCancelClick =>
      -- Lines 457-459: reset the flag, no remote call.
      ({ s with confirmDeleteFileType := false }, none)
  | .procDeleteClick =>
      -- Lines 957-959: arm the flag, no remote call.
      ({ s with confirmDeleteProc := true }, none)
  | .procConfirmClick success =>
      -- Lines 1038-1045: rendered only under the armed flag.
      if s.confirmDeleteProc then
        ({ s with confirmDeleteProc := !success }, some .deleteProcessingConfig)
      else (s, none)
  | .procCancelClick =>
      -- Lines 1048-1050: reset the flag, no remote call.
      ({ s with confirmDeleteProc := false }, none)
  | .pipelineCleanupClick drop_data =>
      -- Lines 1391-1400: `delete_file_type_config` is called directly on
      -- this single button press; no confirmation flag exists here.
      (s, some (.deleteFileTypeConfig drop_data))

/-- Remote calls issued along a trace of interactions, oldest first. -/
def deleteControllerTrace (s : DeleteFlags) :
    List DeleteEvent → List (Option RemoteDeleteCall)
  | [] => []
  | e :: es =>
      let r := deleteControllerStep s e
      r.2 :: deleteControllerTrace r.1 es

/-! ### Validate-before-save flows
(`render_processing_config_management`, `pages/01_Configuration.py`:
create, lines 1118-1139; update, lines 1004-1023).  Each button handler is
modelled as the ordered list of gateway calls it issues, parameterized by
the outcome of the validation call. -/

inductive ProcessingConfigCall where
  | validateCall (cfg : Json)
  | createCall (name ptype model : String) (cfg : Json)
  | updateCall (name ptype model : String) (cfg : Json)

def ProcessingConfigCall.isSave : ProcessingConfigCall → Bool
  | .validateCall _ => false
  | .createCall _ _ _ _ => true
  | .updateCall _ _ _ _ => true

/-- `validation.get("is_valid")` truthiness on the validation envelope. -/
def validationPasses (validation_outcome : GatewayOutcome) : Bool :=
  Json.getTruthy (validate_processing_config_result validation_outcome) "is_valid"

/-- Calls issued by the `➕ Create Configuration` handler (lines 1118-1139):
nothing without a name; otherwise validate first, and create only when the
validation envelope reports `is_valid`. -/
def create_config_click_calls (name ptype model : String) (cfg : Json)
    (validation_outcome : GatewayOutcome) : List ProcessingConfigCall :=
  if name = "" then []
  else
    .validateCall cfg ::
      (if validationPasses validation_outcome then [.createCall name ptype model cfg]
       else [])

/-- Calls issued by the `💾 Save Changes` handler (lines 1004-1023):
validate first, and update only when the validation envelope reports
`is_valid`. -/
def update_config_click_calls (name ptype model : String) (cfg : Json)
    (validation_outcome : GatewayOutcome) : List ProcessingConfigCall :=
  .validateCall cfg ::
    (if validationPasses validation_outcome then [.updateCall name ptype model cfg]
     else [])

/-! ## Claims -/

/-! ### C9: scalar coercion idempotence -/

theorem pyIsdigit_dash_cons (rest : List Char) : pyIsdigit ('-' :: rest) = false := by
  simp [pyIsdigit, List.all_cons]

theorem convertTail_fix (cs : List Char)
    (h1 : convIntGuard cs = false)
    (h2 : convFloatGuard cs = false ∨ pyFloatOfChars? cs = none) :
    convert_string_to_appropriate_type (convertTail cs) = convertTail cs := by
  unfold convertTail
  split
  · rfl
  · split
    · rfl
    · show convertChars cs = Json.str (String.mk cs)
      unfold convertChars
      rw [h1]
      simp only [Bool.false_eq_true, if_false]
      rcases h2 with h2 | h2
      · rw [h2]
        simp only [Bool.false_eq_true, if_false]
        unfold convertTail
        simp [*]
      · split
        · rw [h2]
          unfold convertTail
          simp [*]
        · unfold convertTail
          simp [*]

theorem convertChars_fix (cs : List Char) :
    convert_string_to_appropriate_type (convertChars cs) = convertChars cs := by
  unfold convertChars
  split
  · rfl
  · next h1 =>
    split
    · next h2 =>
      split
      · rfl
      · next hfl =>
        exact convertTail_fix cs (by simpa using h1) (Or.inr hfl)
    · next h2 =>
      exact convertTail_fix cs (by simpa using h1) (Or.inl (by simpa using h2))

/-- C9: `convert_string_to_appropriate_type` is idempotent — every value it
returns is a fixed point, and every non-string input is returned
unchanged. -/
theorem convert_string_to_appropriate_type_idempotent (v : Json) :
    convert_string_to_appropriate_type (convert_string_to_appropriate_type v) =
      convert_string_to_appropriate_type v ∧
    (Json.isStr v = false → convert_string_to_appropriate_type v = v) := by
  constructor
  · cases v with
    | str s => exact convertChars_fix s.data
    | null => rfl
    | bool b => rfl
    | int n => rfl
    | float q => rfl
    | arr xs => rfl
    | obj xs => rfl
  · intro h
    cases v with
    | str s => exact absurd h (by simp [Json.isStr])
    | null => rfl
    | bool b => rfl
    | int n => rfl
    | float q => rfl
    | arr xs => rfl
    | obj xs => rfl

/-- Witness for C9 at the claim's own example, the integer `42`. -/
theorem convert_string_to_appropriate_type_idempotent_witness :
    convert_string_to_appropriate_type (Json.int 42) = Json.int 42 :=
  (convert_string_to_appropriate_type_idempotent (Json.int 42)).2 rfl

/-! ### C7: stage-path construction -/

/-- C7: every record produced by the file-listing wrappers carries the
stage path `@STAGE_NAME/FULL_PATH`, or `@STAGE_NAME` when the relative
path is empty. -/
theorem stage_path_construction (rows : List FileRecord) (r : FileRecord)
    (p : String) (hmem : (r, p) ∈ filesWithStagePaths rows) :
    (r.fullPath ≠ "" → p = "@" ++ r.stageName ++ "/" ++ r.fullPath) ∧
    (r.fullPath = "" → p = "@" ++ r.stageName) := by
  obtain ⟨r', hr', heq⟩ := List.mem_map.mp hmem
  obtain ⟨h1, h2⟩ := Prod.mk.injEq .. ▸ heq
  subst h1
  constructor
  · intro hne
    rw [← h2]
    simp [stagePathOf, hne]
  · intro he
    rw [← h2]
    simp [stagePathOf, he]

/-- Witness for C7 on the spec's own example rows. -/
theorem stage_path_construction_witness :
    ("@MSA_STAGE/contract1.pdf" : String) = "@" ++ "MSA_STAGE" ++ "/" ++ "contract1.pdf" ∧
    ("@MSA_STAGE" : String) = "@" ++ "MSA_STAGE" := by
  refine ⟨?_, ?_⟩
  · exact (stage_path_construction
      [⟨"contract1.pdf", 12, "2024-01-01", "MSA_STAGE", "contract1.pdf"⟩]
      ⟨"contract1.pdf", 12, "2024-01-01", "MSA_STAGE", "contract1.pdf"⟩
      "@MSA_STAGE/contract1.pdf" (List.Mem.head _)).1 (by decide)
  · exact (stage_path_construction
      [⟨"contract1.pdf", 12, "2024-01-01", "MSA_STAGE", ""⟩]
      ⟨"contract1.pdf", 12, "2024-01-01", "MSA_STAGE", ""⟩
      "@MSA_STAGE" (List.Mem.head _)).2 rfl

/-! ### C8: validate-before-save -/

/-- C8: on both the create and the update handler of the processing-config
controller, the validation call heads every call sequence that contains a
save, and a validation envelope without a truthy `is_valid` blocks the
save entirely. -/
theorem validate_before_save (name ptype model : String) (cfg : Json)
    (vo : GatewayOutcome) :
    ((create_config_click_calls name ptype model cfg vo).any
        ProcessingConfigCall.isSave = true →
      (create_config_click_calls name ptype model cfg vo).head? =
        some (.validateCall cfg)) ∧
    (validationPasses vo = false →
      ∀ c ∈ create_config_click_calls name ptype model cfg vo,
        c.isSave = false) ∧
    ((update_config_click_calls name ptype model cfg vo).head? =
      some (.validateCall cfg)) ∧
    (validationPasses vo = false →
      ∀ c ∈ update_config_click_calls name ptype model cfg vo,
        c.isSave = false) := by
  refine ⟨?_, ?_, ?_, ?_⟩
  · intro ha
    by_cases hn : name = ""
    · simp [create_config_click_calls, hn] at ha
    · simp [create_config_click_calls, hn]
  · intro hv c hc
    by_cases hn : name = ""
    · simp [create_config_click_calls, hn] at hc
    · simp [create_config_click_calls, hn, hv] at hc
      subst hc; rfl
  · simp [update_config_click_calls]
  · intro hv c hc
    simp [update_config_click_calls, hv] at hc
    subst hc; rfl

/-- Witness for C8: with a raising validation call, the only call the
create handler issues is the validation call itself. -/
theorem validate_before_save_witness :
    (ProcessingConfigCall.validateCall (Json.obj [])).isSave = false :=
  (validate_before_save "A" "CORTEX_SEARCH" "m" (Json.obj [])
      (.raises "boom")).2.1 rfl (.validateCall (Json.obj []))
    (show ProcessingConfigCall.validateCall (Json.obj []) ∈
        [ProcessingConfigCall.validateCall (Json.obj [])] from
      List.mem_singleton.mpr rfl)

/-! ### C6: gateway envelope normalization -/

/-- C6 counterexample: the comparison runner's zero-row message is
`No response from procedure`, not `No response` as the claim states for
every wrapper. -/
theorem gateway_empty_response_counterexample :
    Json.objGet? (process_documents_result "CORTEX_SEARCH" (.rows [])) "error" =
      some (.str "No response from procedure") ∧
    "No response from procedure" ≠ "No response" :=
  ⟨rfl, by decide⟩

/-- C6 (amended): a raising call and a zero-row call both normalize to an
envelope with a non-empty `error` string (non-empty provided the raised
exception's text is) and without a truthy `success`; the zero-row message
is `No response` in the configuration wrappers but
`No response from procedure` in the comparison runner. -/
theorem gateway_envelope_normalization (msg : String) (h : msg ≠ "") :
    (∃ e, Json.objGet? (create_file_type_config_result (.raises msg)) "error" =
        some (.str e) ∧ e ≠ "") ∧
    Json.getTruthy (create_file_type_config_result (.raises msg)) "success" = false ∧
    Json.objGet? (create_file_type_config_result (.rows [])) "error" =
      some (.str "No response") ∧
    Json.getTruthy (create_file_type_config_result (.rows [])) "success" = false ∧
    (∃ e, Json.objGet? (process_documents_result "CORTEX_SEARCH" (.raises msg))
        "error" = some (.str e) ∧ e ≠ "") ∧
    Json.getTruthy (process_documents_result "CORTEX_SEARCH" (.raises msg))
      "success" = false ∧
    Json.objGet? (process_documents_result "CORTEX_SEARCH" (.rows [])) "error" =
      some (.str "No response from procedure") ∧
    Json.getTruthy (process_documents_result "CORTEX_SEARCH" (.rows []))
      "success" = false := by
  refine ⟨⟨msg, rfl, h⟩, rfl, rfl, rfl, ⟨"Processing failed: " ++ msg, rfl, ?_⟩,
    rfl, rfl, rfl⟩
  intro hc
  have hlen := congrArg String.length hc
  rw [String.length_append] at hlen
  have h19 : "Processing failed: ".length = 19 := rfl
  have h0 : "".length = 0 := rfl
  omega

/-- Witness for C6 at the message `boom`. -/
theorem gateway_envelope_normalization_witness :
    Json.objGet? (create_file_type_config_result (.rows [])) "error" =
      some (.str "No response") :=
  (gateway_envelope_normalization "boom" (by decide)).2.2.1

/-! ### C10: implicit model-list fallback -/

/-- C10 counterexample: on a zero-row reply the main app's
`get_available_models` returns an **empty** `supported_models` list (with
the `claude-4-sonnet` default), contradicting the claimed non-emptiness. -/
theorem model_list_fallback_counterexample :
    Json.objGet? (app_get_available_models (.rows [])) "supported_models" =
      some (.arr []) ∧
    Json.objGet? (app_get_available_models (.rows [])) "default_model" =
      some (.str "claude-4-sonnet") :=
  ⟨rfl, rfl⟩

/-- C10 (amended): both failure paths of the Configuration page wrapper and
the exception path of the main-app wrapper return a plain dictionary (no
`error` key) with a non-empty `supported_models` list and default model
`claude-4-sonnet`; the main-app zero-row path returns the same shape but
with an empty `supported_models` list. -/
theorem model_list_fallback (msg : String) :
    (∃ xs, Json.objGet? (config_page_get_available_models (.raises msg))
        "supported_models" = some (.arr xs) ∧ xs ≠ []) ∧
    Json.objGet? (config_page_get_available_models (.raises msg))
      "default_model" = some (.str "claude-4-sonnet") ∧
    Json.objGet? (config_page_get_available_models (.raises msg)) "error" = none ∧
    (∃ xs, Json.objGet? (config_page_get_available_models (.rows []))
        "supported_models" = some (.arr xs) ∧ xs ≠ []) ∧
    Json.objGet? (config_page_get_available_models (.rows []))
      "default_model" = some (.str "claude-4-sonnet") ∧
    Json.objGet? (config_page_get_available_models (.rows [])) "error" = none ∧
    (∃ xs, Json.objGet? (app_get_available_models (.raises msg))
        "supported_models" = some (.arr xs) ∧ xs ≠ []) ∧
    Json.objGet? (app_get_available_models (.raises msg)) "default_model" =
      some (.str "claude-4-sonnet") ∧
    Json.objGet? (app_get_available_models (.raises msg)) "error" = none ∧
    Json.objGet? (app_get_available_models (.rows [])) "supported_models" =
      some (.arr []) ∧
    Json.objGet? (app_get_available_models (.rows [])) "default_model" =
      some (.str "claude-4-sonnet") ∧
    Json.objGet? (app_get_available_models (.rows [])) "error" = none := by
  refine ⟨⟨[.str "claude-4-sonnet"], rfl, by simp⟩, rfl, rfl,
    ⟨[.str "claude-4-sonnet"], rfl, by simp⟩, rfl, rfl,
    ⟨[.str "claude-4-sonnet", .str "claude-3-5-sonnet", .str "claude-3-7-sonnet",
      .str "llama3-8b", .str "mixtral-8x7b", .str "snowflake-llama-3.1-405b"],
      rfl, by simp⟩, rfl, rfl, rfl, rfl, rfl⟩

/-! ### C3: destructive-action guard -/

/-- C3 counterexample: from the initial state with both confirmation flags
unset, the very first interaction — a single press of the Pipeline
Management cleanup button — already issues the remote deletion call; no
second, separate confirmation press precedes it. -/
theorem destructive_guard_counterexample :
    deleteControllerTrace ⟨false, false⟩ [.pipelineCleanupClick false] =
      [some (.deleteFileTypeConfig false)] := rfl

/-- C3 (amended): the document-type and processing-config deletion flows
follow the two-step protocol — arming presses and cancel presses issue no
remote call, cancels reset their flag, and a remote deletion outside the
Pipeline Management cleanup happens only on a confirm press with its flag
armed, a flag only an arming press can set; the Pipeline Management
cleanup button, by contrast, issues its deletion on a single press with no
confirmation flag at all. -/
theorem delete_confirmation_protocol (s : DeleteFlags) (e : DeleteEvent) :
    (deleteControllerStep s .fileTypeCancelClick =
      ({ s with confirmDeleteFileType := false }, none)) ∧
    (deleteControllerStep s .procCancelClick =
      ({ s with confirmDeleteProc := false }, none)) ∧
    (deleteControllerStep s .fileTypeDeleteClick =
      ({ s with confirmDeleteFileType := true }, none)) ∧
    (deleteControllerStep s .procDeleteClick =
      ({ s with confirmDeleteProc := true }, none)) ∧
    (∀ d, deleteControllerStep s (.pipelineCleanupClick d) =
      (s, some (.deleteFileTypeConfig d))) ∧
    ((deleteControllerStep s e).2.isSome = true →
      (∀ d, e ≠ .pipelineCleanupClick d) →
      ((∃ d succ, e = .fileTypeConfirmClick d succ) ∧
        s.confirmDeleteFileType = true) ∨
      ((∃ succ, e = .procConfirmClick succ) ∧ s.confirmDeleteProc = true)) ∧
    ((deleteControllerStep s e).1.confirmDeleteFileType = true →
      s.confirmDeleteFileType = true ∨ e = .fileTypeDeleteClick) ∧
    ((deleteControllerStep s e).1.confirmDeleteProc = true →
      s.confirmDeleteProc = true ∨ e = .procDeleteClick) := by
  refine ⟨rfl, rfl, rfl, rfl, fun d => rfl, ?_, ?_, ?_⟩ <;> revert s e <;> decide

/-- Witness for C3: a confirm press from an armed state is recognized as
the only non-cleanup source of a deletion call. -/
theorem delete_confirmation_protocol_witness :
    ((∃ d succ, (DeleteEvent.fileTypeConfirmClick true false) =
        .fileTypeConfirmClick d succ) ∧
      (DeleteFlags.mk true false).confirmDeleteFileType = true) ∨
    ((∃ succ, (DeleteEvent.fileTypeConfirmClick true false) =
        .procConfirmClick succ) ∧
      (DeleteFlags.mk true false).confirmDeleteProc = true) :=
  (delete_confirmation_protocol ⟨true, false⟩
      (.fileTypeConfirmClick true false)).2.2.2.2.2.1 rfl (by decide)

/-! ### C1: mode-switch safety on invalid JSON -/

/-- C1 counterexample: with an invalid text buffer, the radio-button
textual-to-structural switch retains the document but **does** change the
active mode — lines 552-562 update the mode slot before the guarded
parse. -/
theorem mode_switch_counterexample :
    handleEvent
        { config := Json.obj [("a", .int 1)], jsonText := "\x7b",
          editMode := .jsonEditor }
        (.radioSelect .uiEditor) =
      .rerun { config := Json.obj [("a", .int 1)], jsonText := "\x7b",
               editMode := .uiEditor } ∧
    loads "\x7b" = none :=
  ⟨rfl, rfl⟩

/-- C1 (amended): with a text buffer that is not valid JSON, both
textual-to-structural switch paths leave the structural document — indeed
everything except the mode slot — unchanged: the `Switch to UI Editor`
button leaves the mode unchanged as well, while the radio-button mode
change does move to the UI editor, retaining the previous document. -/
theorem mode_switch_safety (cfg : Json) (txt : String) (h : loads txt = none) :
    handleEvent { config := cfg, jsonText := txt, editMode := .jsonEditor }
        .switchToUiClick =
      .fallthrough { config := cfg, jsonText := txt, editMode := .jsonEditor } ∧
    handleEvent { config := cfg, jsonText := txt, editMode := .jsonEditor }
        (.radioSelect .uiEditor) =
      .rerun { config := cfg, jsonText := txt, editMode := .uiEditor } := by
  constructor
  · simp [handleEvent, h]
  · simp [handleEvent, h]

/-- Witness for C1 on the buffer `\x7b` (a lone opening brace). -/
theorem mode_switch_safety_witness :
    handleEvent
        { config := Json.obj [], jsonText := "\x7b", editMode := .jsonEditor }
        .switchToUiClick =
      .fallthrough
        { config := Json.obj [], jsonText := "\x7b", editMode := .jsonEditor } :=
  (mode_switch_safety (Json.obj []) "\x7b" rfl).1

/-! ### C2: view consistency in UI mode -/

/-- The mutations whose handlers re-serialize the text buffer at the
mutation site (all the delete and add handlers; the rename and scalar-edit
handlers do not). -/
def immediateReserialize : EditorEvent → Bool
  | .deleteSection _ => true
  | .deleteProp _ _ => true
  | .deleteItem _ _ => true
  | .addProp _ _ _ => true
  | .addItem _ _ => true
  | .addSection _ _ => true
  | _ => false

/-- A pass outcome whose return point (if any, including the return point
of the follow-up pass after a rerun that stays in UI mode) carries a text
buffer equal to the serialization of the returned document. -/
def uiReturnConsistent (o : PassOutcome) : Prop :=
  match o with
  | .ret s' r => s'.jsonText = dumpsIndent2 s'.config ∧ r = s'.config
  | .rerun s' =>
      s'.editMode = .uiEditor →
        match render_json_editor_pass s' .none with
        | .ret s'' r => s''.jsonText = dumpsIndent2 s''.config ∧ r = s''.config
        | .rerun _ => False

/-- A handler step that either re-serialized at the mutation site or left
the state untouched. -/
def immediatelyConsistent (s : EditorState) (h : HandlerStep) : Prop :=
  match h with
  | .rerun s' => s'.jsonText = dumpsIndent2 s'.config
  | .fallthrough s' => s' = s

theorem handleEvent_fallthrough_mode (s s' : EditorState) (e : EditorEvent)
    (hm : s.editMode = .uiEditor)
    (hf : handleEvent s e = .fallthrough s') : s'.editMode = .uiEditor := by
  cases e <;>
    simp only [handleEvent, hm] at hf <;>
    (repeat' split at hf) <;>
    first
      | (injection hf with hx; subst hx; simp [hm])
      | cases hf

/-- C2 (amended): while the editor is in UI mode, every point at which
`render_json_editor` returns — including the return of the pass that
follows a mutation's rerun — has the text buffer equal to the JSON
serialization of the current structural document, which is also the value
returned; the delete and add mutations re-serialize at the mutation site,
whereas renames and scalar edits leave the buffer stale until the
end-of-pass re-serialization of line 886. -/
theorem view_consistency (s : EditorState) (e : EditorEvent)
    (hm : s.editMode = .uiEditor) :
    uiReturnConsistent (render_json_editor_pass s e) ∧
    (immediateReserialize e = true →
      immediatelyConsistent s (handleEvent s e)) := by
  constructor
  · cases hh : handleEvent s e with
    | fallthrough s' =>
        have hm' := handleEvent_fallthrough_mode s s' e hm hh
        simp [render_json_editor_pass, uiReturnConsistent, hh, hm']
    | rerun s' =>
        simp only [render_json_editor_pass, hh, uiReturnConsistent]
        intro hm'
        simp [render_json_editor_pass, handleEvent, hm', uiReturnConsistent]
  · intro hi
    cases e <;> simp only [immediateReserialize, Bool.false_eq_true] at hi
    all_goals
      (simp only [handleEvent, hm]
       repeat' split
       all_goals simp [immediatelyConsistent])

/-- Witness for C2 on a trivial no-interaction pass. -/
theorem view_consistency_witness :
    uiReturnConsistent (render_json_editor_pass
      { config := Json.obj [], jsonText := "x", editMode := .uiEditor }
      .none) :=
  (view_consistency
    { config := Json.obj [], jsonText := "x", editMode := .uiEditor }
    .none rfl).1

/-- C2 counterexample: a section rename reruns with the **stale** text
buffer — the session state observable at the end of that script run has
the buffer still serializing the pre-rename document, which differs from
the serialization of the current (renamed) document. -/
theorem view_consistency_counterexample :
    render_json_editor_pass
        { config := Json.obj [("a", .str "x")],
          jsonText := dumpsIndent2 (Json.obj [("a", .str "x")]),
          editMode := .uiEditor }
        (.renameSection "a" "b") =
      .rerun { config := Json.obj [("b", .str "x")],
               jsonText := dumpsIndent2 (Json.obj [("a", .str "x")]),
               editMode := .uiEditor } ∧
    dumpsIndent2 (Json.obj [("a", .str "x")]) ≠
      dumpsIndent2 (Json.obj [("b", .str "x")]) := by
  refine ⟨rfl, ?_⟩
  decide

/-! ### C4: scalar coercion rule -/

/-- Modelled from C4's words: a string "composed solely of digits
optionally preceded by a sign". -/
def specC4IntCaseClaim (cs : List Char) : Bool :=
  pyIsdigit cs ||
    ((cs.head? = some '-' || cs.head? = some '+') && pyIsdigit cs.tail)

/-- Modelled from C4's words: a string that "contains exactly one decimal
point and is otherwise digits". -/
def specC4FloatCaseClaim (cs : List Char) : Bool :=
  cs.count '.' = 1 && pyIsdigit (cs.filter (fun c => c ≠ '.'))

/-- Modelled from C4's words: a string that "case-insensitively equals
true or false". -/
def specC4BoolCase (cs : List Char) : Bool :=
  pyLower cs = "true".data || pyLower cs = "false".data

/-- The amended int case: solely digits, optionally preceded by a minus
sign. -/
def specC4IntCase (cs : List Char) : Bool :=
  if cs.head? = some '-' then pyIsdigit cs.tail else pyIsdigit cs

/-- The amended float case: after an optional leading minus sign, a string
of digits and exactly one decimal point with at least one digit. -/
def specC4FloatCase (cs : List Char) : Bool :=
  let t := if cs.head? = some '-' then cs.tail else cs
  t.count '.' = 1 && (t.filter (fun c => c ≠ '.')).all Char.isDigit &&
    t.any Char.isDigit

/-- C4 counterexample: `"-1.5"` satisfies none of the claim's three
conversion conditions — in particular its float condition fails because of
the minus sign — so the claim predicts the string is returned unchanged;
the code nevertheless converts it (to the float `-1.5`). -/
theorem scalar_coercion_counterexample :
    specC4IntCaseClaim "-1.5".data = false ∧
    specC4FloatCaseClaim "-1.5".data = false ∧
    specC4BoolCase "-1.5".data = false ∧
    Json.isStr (convert_string_to_appropriate_type (.str "-1.5")) = false := by
  refine ⟨by decide, by decide, by decide, by decide⟩

theorem convIntGuard_eq_specC4IntCase (cs : List Char) :
    convIntGuard cs = specC4IntCase cs := by
  unfold convIntGuard specC4IntCase
  cases cs with
  | nil => simp [pyIsdigit]
  | cons c rest =>
      by_cases hc : c = '-'
      · subst hc
        simp [pyIsdigit_dash_cons]
      · simp [hc]

theorem pyIsdigit_eq_false_of_mem (cs : List Char) (c : Char) (hm : c ∈ cs)
    (hc : c.isDigit = false) : pyIsdigit cs = false := by
  have hall : cs.all Char.isDigit = false := by
    rw [List.all_eq_false]
    exact ⟨c, hm, by simp [hc]⟩
  simp [pyIsdigit, hall]

theorem mem_of_count_dot_eq_one (t : List Char) (h : t.count '.' = 1) :
    '.' ∈ t := by
  have h0 : 0 < t.count '.' := by omega
  exact List.count_pos_iff.mp h0

theorem pyFloatOfChars_isSome (cs : List Char) :
    (pyFloatOfChars? cs).isSome = specC4FloatCase cs := by
  unfold pyFloatOfChars? specC4FloatCase
  dsimp only
  split <;> split <;> simp_all

theorem specC4FloatCase_convIntGuard (cs : List Char)
    (h : specC4FloatCase cs = true) : convIntGuard cs = false := by
  unfold specC4FloatCase at h
  dsimp only at h
  unfold convIntGuard
  by_cases hh : cs.head? = some '-'
  · rw [if_pos hh] at h
    simp only [Bool.and_eq_true, decide_eq_true_eq] at h
    have hdot : '.' ∈ cs.tail := mem_of_count_dot_eq_one _ h.1.1
    have hdotcs : '.' ∈ cs := List.mem_of_mem_tail hdot
    have hA : pyIsdigit cs = false :=
      pyIsdigit_eq_false_of_mem cs '.' hdotcs (by decide)
    have hB : pyIsdigit cs.tail = false :=
      pyIsdigit_eq_false_of_mem _ '.' hdot (by decide)
    simp [hA, hB]
  · rw [if_neg hh] at h
    simp only [Bool.and_eq_true, decide_eq_true_eq] at h
    have hdot : '.' ∈ cs := mem_of_count_dot_eq_one _ h.1.1
    have hA : pyIsdigit cs = false :=
      pyIsdigit_eq_false_of_mem cs '.' hdot (by decide)
    simp [hA, hh]

theorem specC4FloatCase_filter_digits (t : List Char)
    (hall : (t.filter (fun c => c ≠ '.')).all Char.isDigit = true) :
    t.filter (fun c => decide (c ≠ '-') && decide (c ≠ '.')) =
      t.filter (fun c => c ≠ '.') := by
  apply List.filter_congr
  intro c hc
  by_cases hdot : c = '.'
  · simp [hdot]
  · have hdig : c.isDigit = true := by
      have := List.all_eq_true.mp hall c (List.mem_filter.mpr ⟨hc, by simp [hdot]⟩)
      simpa using this
    have hdash : c ≠ '-' := by
      intro hcon
      rw [hcon] at hdig
      exact absurd hdig (by decide)
    simp [hdot, hdash]

theorem specC4FloatCase_convFloatGuard (cs : List Char)
    (h : specC4FloatCase cs = true) : convFloatGuard cs = true := by
  unfold specC4FloatCase at h
  dsimp only at h
  unfold convFloatGuard pyDropChar
  rw [List.filter_filter]
  by_cases hh : cs.head? = some '-'
  · rw [if_pos hh] at h
    simp only [Bool.and_eq_true, decide_eq_true_eq] at h
    obtain ⟨⟨hcount, hall⟩, hany⟩ := h
    obtain ⟨c, cs', rfl⟩ : ∃ c cs', cs = c :: cs' := by
      cases cs with
      | nil => simp at hh
      | cons c cs' => exact ⟨c, cs', rfl⟩
    have hc : c = '-' := by simpa using hh
    subst hc
    simp only [List.tail_cons] at hcount hall hany
    have hdot : '.' ∈ ('-' :: cs') := List.mem_cons_of_mem _
      (mem_of_count_dot_eq_one _ hcount)
    have hfil : ('-' :: cs').filter (fun c => decide (c ≠ '-') && decide (c ≠ '.')) =
        cs'.filter (fun c => c ≠ '.') := by
      rw [List.filter_cons_of_neg (by simp)]
      exact specC4FloatCase_filter_digits cs' hall
    obtain ⟨d, hd, hdig⟩ := List.any_eq_true.mp hany
    have hdne : d ≠ '.' := by
      intro hcon; rw [hcon] at hdig; exact absurd hdig (by decide)
    have hne : cs'.filter (fun c => c ≠ '.') ≠ [] :=
      List.ne_nil_of_mem (List.mem_filter.mpr ⟨hd, by simp [hdne]⟩)
    have hcont : ('-' :: cs').contains '.' = true :=
      List.elem_eq_true_of_mem hdot
    rw [hcont, hfil]
    simp only [Bool.true_and]
    simp [pyIsdigit, List.isEmpty_iff, hne]
    refine ⟨⟨d, hd, hdne⟩, ?_⟩
    intro x hx
    by_cases hxd : x = '.'
    · exact Or.inl hxd
    · exact Or.inr (by
        simpa using List.all_eq_true.mp hall x
          (List.mem_filter.mpr ⟨hx, by simp [hxd]⟩))
  · rw [if_neg hh] at h
    simp only [Bool.and_eq_true, decide_eq_true_eq] at h
    obtain ⟨⟨hcount, hall⟩, hany⟩ := h
    have hdot : '.' ∈ cs := mem_of_count_dot_eq_one _ hcount
    have hfil : cs.filter (fun c => decide (c ≠ '-') && decide (c ≠ '.')) =
        cs.filter (fun c => c ≠ '.') :=
      specC4FloatCase_filter_digits cs hall
    obtain ⟨d, hd, hdig⟩ := List.any_eq_true.mp hany
    have hdne : d ≠ '.' := by
      intro hcon; rw [hcon] at hdig; exact absurd hdig (by decide)
    have hne : cs.filter (fun c => c ≠ '.') ≠ [] :=
      List.ne_nil_of_mem (List.mem_filter.mpr ⟨hd, by simp [hdne]⟩)
    have hcont : cs.contains '.' = true :=
      List.elem_eq_true_of_mem hdot
    rw [hcont, hfil]
    simp only [Bool.true_and]
    simp [pyIsdigit, List.isEmpty_iff, hne]
    refine ⟨⟨d, hd, hdne⟩, ?_⟩
    intro x hx
    by_cases hxd : x = '.'
    · exact Or.inl hxd
    · exact Or.inr (by
        simpa using List.all_eq_true.mp hall x
          (List.mem_filter.mpr ⟨hx, by simp [hxd]⟩))

theorem pyFloatOfChars_eq_none (cs : List Char)
    (h : specC4FloatCase cs = false) : pyFloatOfChars? cs = none := by
  have hs := pyFloatOfChars_isSome cs
  rw [h] at hs
  exact Option.not_isSome_iff_eq_none.mp (by simp [hs])

/-- C4 (amended): `convert_string_to_appropriate_type` returns an integer
when the string is solely digits optionally preceded by a minus sign;
otherwise a float when, after an optional leading minus sign, the string
consists of digits and exactly one decimal point with at least one digit;
otherwise a boolean (true exactly for case-insensitive `true`) when the
string case-insensitively equals `true` or `false`; otherwise the original
string unchanged. -/
theorem scalar_coercion_rule (s : String) :
    (specC4IntCase s.data = true →
      ∃ n, convert_string_to_appropriate_type (.str s) = .int n) ∧
    (specC4IntCase s.data = false → specC4FloatCase s.data = true →
      ∃ q, convert_string_to_appropriate_type (.str s) = .float q) ∧
    (specC4IntCase s.data = false → specC4FloatCase s.data = false →
      specC4BoolCase s.data = true →
      ∃ b, convert_string_to_appropriate_type (.str s) = .bool b ∧
        (b = true ↔ pyLower s.data = "true".data)) ∧
    (specC4IntCase s.data = false → specC4FloatCase s.data = false →
      specC4BoolCase s.data = false →
      convert_string_to_appropriate_type (.str s) = .str s) := by
  have hcc : convert_string_to_appropriate_type (.str s) = convertChars s.data := rfl
  refine ⟨?_, ?_, ?_, ?_⟩
  · intro hint
    have hig : convIntGuard s.data = true := by
      rw [convIntGuard_eq_specC4IntCase, hint]
    rw [hcc]
    unfold convertChars
    rw [hig]
    exact ⟨pyIntOfChars s.data, by simp⟩
  · intro hint hfl
    have hig : convIntGuard s.data = false := by
      rw [convIntGuard_eq_specC4IntCase, hint]
    have hfg := specC4FloatCase_convFloatGuard s.data hfl
    have hsome : (pyFloatOfChars? s.data).isSome = true := by
      rw [pyFloatOfChars_isSome, hfl]
    obtain ⟨q, hq⟩ := Option.isSome_iff_exists.mp hsome
    refine ⟨q, ?_⟩
    rw [hcc]
    unfold convertChars
    rw [hig, hfg, hq]
    simp
  · intro hint hfl hbool
    have hig : convIntGuard s.data = false := by
      rw [convIntGuard_eq_specC4IntCase, hint]
    have hnone := pyFloatOfChars_eq_none s.data hfl
    have htail : convert_string_to_appropriate_type (.str s) = convertTail s.data := by
      rw [hcc]
      unfold convertChars
      rw [hig]
      by_cases hfg : convFloatGuard s.data = true
      · rw [hfg, hnone]
        simp
      · simp [hfg]
    unfold specC4BoolCase at hbool
    rcases Bool.or_eq_true_iff.mp hbool with hlow | hlow
    · rw [decide_eq_true_eq] at hlow
      refine ⟨true, ?_, by simp [hlow]⟩
      rw [htail]
      unfold convertTail
      simp [hlow]
    · rw [decide_eq_true_eq] at hlow
      have hne : pyLower s.data ≠ "true".data := by
        rw [hlow]
        decide
      refine ⟨false, ?_, by simp [hne]⟩
      rw [htail]
      unfold convertTail
      simp [hlow, hne]
  · intro hint hfl hbool
    have hig : convIntGuard s.data = false := by
      rw [convIntGuard_eq_specC4IntCase, hint]
    have hnone := pyFloatOfChars_eq_none s.data hfl
    have htail : convert_string_to_appropriate_type (.str s) = convertTail s.data := by
      rw [hcc]
      unfold convertChars
      rw [hig]
      by_cases hfg : convFloatGuard s.data = true
      · rw [hfg, hnone]
        simp
      · simp [hfg]
    unfold specC4BoolCase at hbool
    rw [Bool.or_eq_false_iff] at hbool
    obtain ⟨h1, h2⟩ := hbool
    rw [decide_eq_false_iff_not] at h1 h2
    rw [htail]
    unfold convertTail
    simp [h1, h2]

/-- Witness for C4: a string matching none of the cases is returned
unchanged. -/
theorem scalar_coercion_rule_witness :
    convert_string_to_appropriate_type (.str "abc") = .str "abc" :=
  (scalar_coercion_rule "abc").2.2.2 (by decide) (by decide) (by decide)

/-! ### C5: argument encoding -/

/-- Modelled from C5's words: a string argument "wrapped in quotes with
literal quote characters doubled". -/
def claimEncodeString (s : String) : String := "'" ++ pyDoubleQuotes s ++ "'"

/-- Modelled from C5's words: a nested JSON payload "serialized to text,
quote-doubled, then wrapped in quotes". -/
def claimEncodeJson (v : Json) : String :=
  "'" ++ pyDoubleQuotes (dumpsCompact v) ++ "'"

/-- The amended encoding of the identifier-like string arguments: wrapped
in quotes, embedded without any escaping. -/
def rawQuoted (s : String) : String := "'" ++ s ++ "'"

/-- The `CALL FILE_TYPE_CONFIGS_CREATE` text as C5 claims it is built:
every string argument quote-doubled. -/
def claim_create_file_type_config_sql (file_type file_description : String)
    (chunk_size chunk_overlap : Int) (target_lag : String) : String :=
  "\n            CALL FILE_TYPE_CONFIGS_CREATE(\n                " ++
    claimEncodeString file_type ++ ",\n                " ++
    claimEncodeString file_description ++ ",\n                " ++
    toString chunk_size ++ ",\n                " ++
    toString chunk_overlap ++ ",\n                " ++
    claimEncodeString target_lag ++ "\n            )\n            "

/-- C5 counterexample: a file type containing a quote character is
embedded verbatim, not quote-doubled, so the built SQL differs from the
claim's encoding. -/
theorem argument_encoding_counterexample :
    create_file_type_config_sql "O'TYPE" "d" 1000 100 "1 minute" ≠
      claim_create_file_type_config_sql "O'TYPE" "d" 1000 100 "1 minute" := by
  decide

/-- C5 (amended): in every gateway call text, the description field and
the serialized JSON payloads are quote-doubled and wrapped in quotes,
while the identifier-like string arguments (file type, target lag, config
name, processing type, model name) are wrapped in quotes without any
escaping; booleans become lowercase literal tokens and numbers are
embedded verbatim. -/
theorem argument_encoding (file_type file_description target_lag : String)
    (chunk_size chunk_overlap : Int) (drop_data : Bool)
    (config_name processing_type config_model model_name procedure_name : String)
    (config_json file_config : Json) :
    (create_file_type_config_sql file_type file_description chunk_size
        chunk_overlap target_lag =
      "\n            CALL FILE_TYPE_CONFIGS_CREATE(\n                " ++
        rawQuoted file_type ++ ",\n                " ++
        claimEncodeString file_description ++ ",\n                " ++
        toString chunk_size ++ ",\n                " ++
        toString chunk_overlap ++ ",\n                " ++
        rawQuoted target_lag ++ "\n            )\n            ") ∧
    (delete_file_type_config_sql file_type drop_data =
      "CALL FILE_TYPE_CONFIGS_DELETE(" ++ rawQuoted file_type ++ ", " ++
        pyBoolLower drop_data ++ ")") ∧
    (pyBoolLower true = "true" ∧ pyBoolLower false = "false") ∧
    (create_processing_config_sql config_name processing_type config_model
        config_json =
      "\n            CALL PROCESSING_CONFIGS_CREATE(\n                " ++
        rawQuoted config_name ++ ",\n                " ++
        rawQuoted processing_type ++ ",\n                " ++
        claimEncodeJson config_json ++ ",\n                " ++
        rawQuoted config_model ++ "\n            )\n            ") ∧
    (process_documents_sql procedure_name file_config config_json model_name =
      "\n            CALL " ++ procedure_name ++ "(\n                PARSE_JSON(" ++
        claimEncodeJson file_config ++ "),\n                PARSE_JSON(" ++
        claimEncodeJson config_json ++ "),\n                " ++
        rawQuoted model_name ++ "\n            )\n            ") := by
  unfold create_file_type_config_sql delete_file_type_config_sql
    create_processing_config_sql process_documents_sql rawQuoted
    claimEncodeString claimEncodeJson
  refine ⟨?_, ?_, ⟨rfl, rfl⟩, ?_, ?_⟩ <;>
    (apply String.ext
     simp only [String.data_append, List.append_assoc]
     rfl)

set_option maxRecDepth 4000 in
/-- The encoding exercised at a concrete call: the description's quote is
doubled while the file type's is not. -/
theorem argument_encoding_example :
    create_file_type_config_sql "CONTRACT" "client's docs" 1000 100 "1 minute" =
      "\n            CALL FILE_TYPE_CONFIGS_CREATE(\n                " ++
        "'CONTRACT'" ++ ",\n                " ++ "'client''s docs'" ++
        ",\n                " ++ "1000" ++ ",\n                " ++ "100" ++
        ",\n                " ++ "'1 minute'" ++ "\n            )\n            " := by
  decide
